import Mathlib

/-!
Shallow embedding of the chat/TTS backend in `app.py`.

Strings are modelled by Lean `String` (a sequence of Unicode codepoints,
matching Python `str`).  The OpenAI chat-completion call is modelled by an
oracle `model : List Msg → Option String` (`some s` means the vendor call
succeeded and `choices[0].message.content` was the string `s`; `none` means
the call raised).  `random.choice` is modelled by an oracle `rng : Nat → Nat`
indexing successive draws.  File-system effects are modelled by returning the
list of audio files written.
-/

namespace App

/-- Python `str.strip()` whitespace set: the codepoints CPython's
`Py_UNICODE_ISSPACE` (the `str.isspace()` predicate) accepts — ASCII
whitespace and separators U+0009–U+000D, U+001C–U+001F, U+0020, then
U+0085, U+00A0 (NBSP), U+1680, U+2000–U+200A, U+2028, U+2029, U+202F,
U+205F and U+3000. -/
def isPySpace (c : Char) : Bool :=
  (decide (0x09 ≤ c.toNat) && decide (c.toNat ≤ 0x0D)) ||
  (decide (0x1C ≤ c.toNat) && decide (c.toNat ≤ 0x20)) ||
  c.toNat = 0x85 || c.toNat = 0xA0 || c.toNat = 0x1680 ||
  (decide (0x2000 ≤ c.toNat) && decide (c.toNat ≤ 0x200A)) ||
  c.toNat = 0x2028 || c.toNat = 0x2029 || c.toNat = 0x202F ||
  c.toNat = 0x205F || c.toNat = 0x3000

/-- Python `s.strip()`: drop leading and trailing Unicode whitespace. -/
def pyStrip (s : String) : String :=
  String.mk (((s.toList.dropWhile isPySpace).reverse.dropWhile isPySpace).reverse)

/-- Python `s.lower()` restricted to ASCII letters (the only case the
language tags in `app.py` exercise). -/
def lowerAscii (s : String) : String :=
  String.mk (s.toList.map Char.toLower)

/-- `detect_language` (app.py line 63): `"bn"` when `re.search(r"[ঀ-৿]", text)`
finds a codepoint in the Bangla block, else `"en"`. -/
def detect_language (text : String) : String :=
  if text.toList.any (fun c => decide (0x0980 ≤ c.toNat) && decide (c.toNat ≤ 0x09FF))
  then "bn" else "en"

/-- One product entry of `products.json`.  Field values are modelled by the
string Python's f-string rendering produces for them. -/
structure Product where
  name : String
  category : String
  features : String
  usage_instructions : String
  ingredients : List String
  price_bdt : String
  suitability : String
deriving Repr, DecidableEq, Inhabited

/-- One brand entry: `brand_name` plus its products. -/
structure Brand where
  brand_name : String
  products : List Product
deriving Repr, DecidableEq, Inhabited

/-- The loaded `PRODUCT_DATA` structure: `{"brands": [...]}`. -/
structure ProductData where
  brands : List Brand
deriving Repr, DecidableEq, Inhabited

/-- A product together with the denormalized `brand` field added by
`get_all_products`. -/
structure FlatProduct extends Product where
  brand : String
deriving Repr, DecidableEq, Inhabited

/-- `get_all_products` (app.py line 66): flatten brands, copying each product
and attaching the parent brand name. -/
def get_all_products (d : ProductData) : List FlatProduct :=
  d.brands.flatMap (fun b => b.products.map (fun p => { p with brand := b.brand_name }))

/-- The per-product block of `format_products_for_prompt` (app.py line 75). -/
def format_one_product (p : FlatProduct) : String :=
  "Product Name: " ++ p.name ++
  "\nBrand: " ++ p.brand ++
  "\nCategory: " ++ p.category ++
  "\nFeatures: " ++ p.features ++
  "\nUsage: " ++ p.usage_instructions ++
  "\nIngredients: " ++ String.intercalate ", " p.ingredients ++
  "\nPrice: " ++ p.price_bdt ++ " BDT" ++
  "\nSuitability: " ++ p.suitability ++
  "\n---"

/-- `format_products_for_prompt` (app.py line 75): join the per-product blocks
with newlines. -/
def format_products_for_prompt (products : List FlatProduct) : String :=
  String.intercalate "\n" (products.map format_one_product)

/-- The process-wide read-only data loaded at startup: `ARTICLE_TEXT` and
`PRODUCT_DATA`. -/
structure Env where
  article : String
  product_data : ProductData
deriving Repr, DecidableEq, Inhabited

/-- The system-instruction string built at app.py line 204 from the article
and formatted catalog. -/
def mk_system_instruction (env : Env) : String :=
  "\nYou are a professional customer service officer for Lira Cosmetics Ltd.\n\nCompany Info:\n"
  ++ env.article
  ++ "\n\nProducts:\n"
  ++ format_products_for_prompt (get_all_products env.product_data)
  ++ "\n"

/-- A chat message record `{"role": ..., "content": ...}`. -/
structure Msg where
  role : String
  content : String
deriving Repr, DecidableEq, Inhabited

/-- `system_rules` (app.py line 214). -/
def system_rules (lang : String) : String :=
  if lang = "bn" then "Reply in polite, natural Bangla." else "Reply in polite, natural English."

/-- Content of the second system message (app.py lines 222-232). -/
def rules_block (lang : String) : String :=
  system_rules lang ++
  "\nRules:\n- Answer ONLY from company data\n- Keep replies short (2–3 sentences)\n- No emojis, no bullets and numbering\n- instead of BDT say টাকা\n- Any numbers in the reply should be stated as numbers, not words. Like reply ৮৫০ instead of ৮50\n"

/-- Per-session server-side state: `session["chat_history"]` (absent modelled
as `[]`, which the guard at app.py line 200 makes equivalent) and
`session["system_instruction"]` (`none` when not yet set). -/
structure SessionState where
  chat_history : List Msg := []
  system_instruction : Option String := none
deriving Repr, DecidableEq, Inhabited

/-- The JSON body `jsonify` produces for `/chat`, plus the HTTP status
(`jsonify` without a status tuple is HTTP 200). -/
structure ChatResponse where
  reply : String
  lang : String
  status : Nat
deriving Repr, DecidableEq, Inhabited

/-- Python `l[-6:]`: the last `n` elements of a list (all of it when shorter). -/
def takeLast (n : Nat) (l : List α) : List α :=
  l.drop (l.length - n)

/-- Observable outcome of one `/chat` request: the HTTP response, the session
state afterwards, and the message list passed to the model (`none` when the
handler returned before calling the model). -/
structure ChatOutcome where
  response : ChatResponse
  state : SessionState
  sent : Option (List Msg)
deriving Repr, DecidableEq, Inhabited

/-- The canned apology substituted on model failure (app.py lines 255-259). -/
def apology (lang : String) : String :=
  if lang = "bn" then "এই মুহূর্তে উত্তর দিতে সমস্যা হচ্ছে।"
  else "I'm having trouble answering right now."

/-- `chat` (app.py lines 190-261).  `message? = none` models a body without a
`"message"` key (`data.get("message", "")`).  `model` is the
`client.chat.completions.create` oracle: `some content` is a successful call
whose first choice has string content `content`; `none` is a raised
exception. -/
def chat (env : Env) (model : List Msg → Option String)
    (st : SessionState) (message? : Option String) : ChatOutcome :=
  let user_message := pyStrip (message?.getD "")
  if user_message = "" then
    { response := { reply := "Please ask a question.", lang := "en", status := 200 },
      state := st, sent := none }
  else
    let lang := detect_language user_message
    let sys_inst := match st.system_instruction with
      | some s => s
      | none => mk_system_instruction env
    let st1 : SessionState := { st with system_instruction := some sys_inst }
    let messages : List Msg :=
      { role := "system", content := sys_inst } ::
      { role := "system", content := rules_block lang } ::
      st1.chat_history ++ [{ role := "user", content := user_message }]
    match model messages with
    | some content =>
        let reply := pyStrip content
        let st2 : SessionState :=
          { st1 with chat_history :=
              takeLast 6 (st1.chat_history ++
                [{ role := "user", content := user_message },
                 { role := "assistant", content := reply }]) }
        { response := { reply := reply, lang := lang, status := 200 },
          state := st2, sent := some messages }
    | none =>
        { response := { reply := apology lang, lang := lang, status := 200 },
          state := st1, sent := some messages }

/-- Run a sequence of chat turns from a given state; turn `(m, r)` sends
message `m` and the model call succeeds with content `r`. -/
def runChat (env : Env) (st : SessionState) (turns : List (String × String)) : SessionState :=
  turns.foldl (fun s t => (chat env (fun _ => some t.2) s (some t.1)).state) st

/-- The user/assistant pair a successful turn appends to the history. -/
def turnPair (t : String × String) : List Msg :=
  [{ role := "user", content := pyStrip t.1 },
   { role := "assistant", content := pyStrip t.2 }]

/-- The full untrimmed history of a list of successful turns, oldest first. -/
def pairsOf (turns : List (String × String)) : List Msg :=
  turns.flatMap turnPair

/-- The three sentence-ending characters of the Bangla split pattern
`r"(?<=[।!?])"` (app.py line 109). -/
def isSentenceEnd (c : Char) : Bool :=
  c = '।' || c = '!' || c = '?'

/-- Helper for `re.split(r"(?<=[।!?])", text)`: `acc` holds the current
fragment reversed. -/
def splitAfterEndAux : List Char → List Char → List (List Char)
  | [], acc => [acc.reverse]
  | c :: rest, acc =>
      if isSentenceEnd c then (c :: acc).reverse :: splitAfterEndAux rest []
      else splitAfterEndAux rest (c :: acc)

/-- `re.split(r"(?<=[।!?])", text)` (app.py line 109): cut the text after
every sentence-ending character; the delimiter stays at the end of its
fragment and a trailing (possibly empty) fragment always remains. -/
def splitAfterSentenceEnd (text : List Char) : List (List Char) :=
  splitAfterEndAux text []

/-- Python `s.strip()` on a codepoint list. -/
def stripChars (s : List Char) : List Char :=
  ((s.dropWhile isPySpace).reverse.dropWhile isPySpace).reverse

/-- `s.strip().endswith(("!", "?"))` (app.py line 114). -/
def endsStrong (s : List Char) : Bool :=
  match s.getLast? with
  | some c => c = '!' || c = '?'
  | none => false

/-- Pitch choices for strongly punctuated Bangla sentences (app.py line 115). -/
def strongPitches : List String := ["+2%", "+3%", "+4%"]

/-- Rate choices for strongly punctuated Bangla sentences (app.py line 115). -/
def strongRates : List String := ["1.03", "1.05", "1.07"]

/-- Pitch choices for other Bangla sentences (app.py line 117). -/
def weakPitches : List String := ["+1%", "+2%", "+3%"]

/-- Rate choices for other Bangla sentences (app.py line 117). -/
def weakRates : List String := ["1.02", "1.04", "1.06"]

/-- One `<prosody ...>sentence</prosody> <break .../>` unit of the Bangla
SSML body: the chosen pitch and rate, the stripped sentence text, and the
pause length in milliseconds of the break that follows it. -/
structure BnPiece where
  pitch : String
  rate : String
  text : String
  breakMs : Nat
deriving Repr, DecidableEq, Inhabited

/-- `random.choice(l)` modelled by the draw oracle: draw `k` picks index
`rng k % l.length`. -/
def rngChoice (rng : Nat → Nat) (k : Nat) (l : List String) : String :=
  l.getD (rng k % l.length) ""

/-- The loop of the Bangla branch of `build_ssml` (app.py lines 111-117):
skip fragments that strip to empty; wrap each remaining fragment with a
randomly chosen pitch/rate and follow it with a 500ms break when it ends in
"!" or "?", else a 250ms break.  `k` counts the random draws made so far. -/
def buildBnPieces (rng : Nat → Nat) : List (List Char) → Nat → List BnPiece
  | [], _ => []
  | s :: rest, k =>
      let t := stripChars s
      if t = [] then buildBnPieces rng rest k
      else if endsStrong t then
        { pitch := rngChoice rng k strongPitches, rate := rngChoice rng (k + 1) strongRates,
          text := String.mk t, breakMs := 500 } :: buildBnPieces rng rest (k + 2)
      else
        { pitch := rngChoice rng k weakPitches, rate := rngChoice rng (k + 1) weakRates,
          text := String.mk t, breakMs := 250 } :: buildBnPieces rng rest (k + 2)

/-- The SSML document `build_ssml` returns, abstracted to its payload: either
the Bangla `bn-BD-NabanitaNeural` chat-style body made of prosody/break
pieces, or the English `en-US-JennyNeural` cheerful body wrapping the whole
text once at fixed pitch/rate. -/
inductive Ssml where
  | bn (pieces : List BnPiece)
  | en (voice : String) (rate : String) (pitch : String) (text : String)
deriving Repr, DecidableEq, Inhabited

/-- `build_ssml` (app.py lines 101-146): the Bangla branch runs exactly when
`lang == "bn"`; every other tag gets the single cheerful English wrapper. -/
def build_ssml (rng : Nat → Nat) (text : String) (lang : String) : Ssml :=
  if lang = "bn" then
    .bn (buildBnPieces rng (splitAfterSentenceEnd text.toList) 0)
  else
    .en "en-US-JennyNeural" "1.05" "+3%" text

/-- `synthesize_speech` (app.py lines 148-181).  `key`/`region` are
`os.getenv` results (`none` when unset); `vendorOk` is whether the Azure call
reports `SynthesizingAudioCompleted`; `fname` is the generated
`uuid.uuid4().hex ++ ".mp3"` name.  Returns the raised error or the audio
path, plus the list of audio files written (the output file is configured
before synthesis runs, so it exists whenever credentials are present). -/
def synthesize_speech (key region : Option String) (vendorOk : Bool)
    (rng : Nat → Nat) (fname : String) (text : String) (lang : String) :
    Except String String × List String :=
  if key.getD "" = "" || region.getD "" = "" then
    (.error "Azure Speech credentials missing", [])
  else
    let _ssml := build_ssml rng text lang
    if vendorOk then (.ok fname, [fname])
    else (.error "Azure TTS failed", [fname])

/-- Language normalization of the `/tts` handler (app.py lines 273-277):
a falsy (`none` or empty) tag is replaced by detection, then any tag whose
lowercase form is `bn`, `bn-bd` or `bn_bd` becomes exactly `"bn"`. -/
def normalize_lang (text : String) (lang? : Option String) : String :=
  let lang := match lang? with
    | none => detect_language text
    | some l => if l = "" then detect_language text else l
  if lowerAscii lang = "bn" || lowerAscii lang = "bn-bd" || lowerAscii lang = "bn_bd"
  then "bn" else lang

/-- The JSON body and status `/tts` answers with. -/
structure TtsResponse where
  status : Nat
  error : Option String
  audio_url : Option String
  lang : Option String
deriving Repr, DecidableEq, Inhabited

/-- `tts` (app.py lines 263-288).  Returns the HTTP response and the list of
audio files written while handling the request. -/
def tts (key region : Option String) (vendorOk : Bool) (rng : Nat → Nat)
    (fname : String) (text? lang? : Option String) : TtsResponse × List String :=
  let text := pyStrip (text?.getD "")
  if text = "" then
    ({ status := 400, error := some "No text provided", audio_url := none, lang := none }, [])
  else
    let lang := normalize_lang text lang?
    match synthesize_speech key region vendorOk rng fname text lang with
    | (.ok p, files) =>
        ({ status := 200, error := none,
           audio_url := some ("/static/tts/" ++ p), lang := some lang }, files)
    | (.error e, files) =>
        ({ status := 500, error := some ("TTS failed: " ++ e),
           audio_url := none, lang := none }, files)

/-- The Bangla-block test on one codepoint, as a proposition. -/
def inBanglaBlock (c : Char) : Prop :=
  0x0980 ≤ c.toNat ∧ c.toNat ≤ 0x09FF

instance (c : Char) : Decidable (inBanglaBlock c) := by
  unfold inBanglaBlock; infer_instance

/-- The lang tags the `/tts` handler folds into "bn" (app.py line 276). -/
def isBnTag (l : String) : Prop :=
  lowerAscii l = "bn" ∨ lowerAscii l = "bn-bd" ∨ lowerAscii l = "bn_bd"

instance (l : String) : Decidable (isBnTag l) := by
  unfold isBnTag; infer_instance

/-- What the Bangla SSML loop keeps of a raw fragment: nothing when it strips
to whitespace, else the stripped text and the pause length that follows it. -/
def fragProj (s : List Char) : Option (String × Nat) :=
  if stripChars s = [] then none
  else some (String.mk (stripChars s), if endsStrong (stripChars s) then 500 else 250)

/-- The spec's worked Bangla example sentence. -/
def bnExample : String := "আমি ভালো আছি। তুমি কেমন আছ?"

/-- A four-turn script exercising the history window. -/
def demoTurns : List (String × String) :=
  [("What do you sell?", "r1"), (" কত দাম? ", "r2"), ("Ship to Dhaka?", "r3"), ("ok", "r4")]

/-- Claim C2: the language detector returns "bn" iff the input contains a
codepoint of the Bangla Unicode block U+0980–U+09FF, and returns "en" for
every other string; being a Lean function it is pure and total. -/
theorem detect_language_spec (s : String) :
    (detect_language s = "bn" ↔ ∃ c ∈ s.toList, inBanglaBlock c)
    ∧ (detect_language s = "en" ↔ ¬ ∃ c ∈ s.toList, inBanglaBlock c) := by
  unfold detect_language inBanglaBlock
  by_cases h : s.toList.any (fun c => decide (0x0980 ≤ c.toNat) && decide (c.toNat ≤ 0x09FF)) <;>
    simp_all [List.any_eq_true]

/-- Claim C3: the session's system prompt is left alone by an empty message,
is computed by the prompt formatter on the first non-empty message, and once
stored is never recomputed or modified by any later chat step. -/
theorem system_instruction_memoized (env : Env) (model : List Msg → Option String)
    (st : SessionState) (message? : Option String) :
    (chat env model st message?).state.system_instruction =
      (if pyStrip (message?.getD "") = "" then st.system_instruction
       else some (st.system_instruction.getD (mk_system_instruction env))) := by
  unfold chat
  by_cases h : pyStrip (message?.getD "") = ""
  · simp [h]
  · rcases hsi : st.system_instruction with _ | s <;>
      simp [h, hsi] <;> split <;> simp

/-- Claim C5: an empty, whitespace-only or absent chat message yields the
fixed prompt-for-input reply with language "en", leaves the whole session
state untouched and never reaches the model. -/
theorem chat_empty_message (env : Env) (model : List Msg → Option String)
    (st : SessionState) (message? : Option String)
    (h : pyStrip (message?.getD "") = "") :
    (chat env model st message?).response =
        { reply := "Please ask a question.", lang := "en", status := 200 }
    ∧ (chat env model st message?).state = st
    ∧ (chat env model st message?).sent = none := by
  unfold chat; simp [h]

theorem chat_empty_message_witness :
    pyStrip ((some "  \n ").getD "") = ""
    ∧ ((chat default (fun _ => none) default (some "  \n ")).response =
          { reply := "Please ask a question.", lang := "en", status := 200 }
        ∧ (chat default (fun _ => none) default (some "  \n ")).state = default
        ∧ (chat default (fun _ => none) default (some "  \n ")).sent = none) :=
  ⟨by decide, chat_empty_message default (fun _ => none) default (some "  \n ") (by decide)⟩

/-- Claim C4: when the model call raises on a non-empty message, the handler
still answers HTTP 200 with the canned apology in the detected language
(Bangla apology for "bn", English otherwise), and the chat history is
unchanged. -/
theorem chat_model_failure (env : Env) (model : List Msg → Option String)
    (st : SessionState) (msg : String)
    (hne : pyStrip msg ≠ "") (hfail : ∀ L, model L = none) :
    (chat env model st (some msg)).response.status = 200
    ∧ (chat env model st (some msg)).response.reply =
        apology (detect_language (pyStrip msg))
    ∧ (chat env model st (some msg)).response.lang = detect_language (pyStrip msg)
    ∧ (chat env model st (some msg)).state.chat_history = st.chat_history := by
  unfold chat; simp [hne, hfail]

theorem chat_model_failure_witness :
    pyStrip "কি অবস্থা?" ≠ ""
    ∧ ((chat default (fun _ => none) default (some "কি অবস্থা?")).response.status = 200
        ∧ (chat default (fun _ => none) default (some "কি অবস্থা?")).response.reply =
            apology (detect_language (pyStrip "কি অবস্থা?"))
        ∧ (chat default (fun _ => none) default (some "কি অবস্থা?")).response.lang =
            detect_language (pyStrip "কি অবস্থা?")
        ∧ (chat default (fun _ => none) default
              (some "কি অবস্থা?")).state.chat_history = [] ) :=
  ⟨by decide,
   chat_model_failure default (fun _ => none) default "কি অবস্থা?" (by decide) (fun _ => rfl)⟩

/-- Claim C6: on a non-empty message the list sent to the model is, in order:
a system message with the session's (lazily initialized) cached prompt, a
system message with the language-specific rules, the existing history
oldest-first, then the new user message last. -/
theorem chat_message_list (env : Env) (model : List Msg → Option String)
    (st : SessionState) (msg : String) (hne : pyStrip msg ≠ "") :
    (chat env model st (some msg)).sent =
      some ({ role := "system",
              content := st.system_instruction.getD (mk_system_instruction env) } ::
            { role := "system",
              content := rules_block (detect_language (pyStrip msg)) } ::
            st.chat_history ++ [{ role := "user", content := pyStrip msg }]) := by
  unfold chat
  rcases hsi : st.system_instruction with _ | s <;>
    simp [hne, hsi] <;> split <;> simp

theorem chat_message_list_witness :
    pyStrip " hello " ≠ ""
    ∧ (chat default (fun _ => some "ok") default (some " hello ")).sent =
        some ({ role := "system",
                content := (default : SessionState).system_instruction.getD
                  (mk_system_instruction default) } ::
              { role := "system",
                content := rules_block (detect_language (pyStrip " hello ")) } ::
              (default : SessionState).chat_history ++
                [{ role := "user", content := pyStrip " hello " }]) :=
  ⟨by decide, chat_message_list default (fun _ => some "ok") default " hello " (by decide)⟩

/-- Claim C8: a `/tts` request whose text is empty, whitespace-only or absent
is answered HTTP 400 with an error payload, no audio URL, and no audio file
is written. -/
theorem tts_empty_text (key region : Option String) (vendorOk : Bool)
    (rng : Nat → Nat) (fname : String) (text? lang? : Option String)
    (h : pyStrip (text?.getD "") = "") :
    (tts key region vendorOk rng fname text? lang?).1.status = 400
    ∧ (tts key region vendorOk rng fname text? lang?).1.error = some "No text provided"
    ∧ (tts key region vendorOk rng fname text? lang?).1.audio_url = none
    ∧ (tts key region vendorOk rng fname text? lang?).2 = [] := by
  unfold tts; simp [h]

theorem tts_empty_text_witness :
    pyStrip ((some "   ").getD "") = ""
    ∧ ((tts none none true (fun _ => 0) "a.mp3" (some "   ") none).1.status = 400
        ∧ (tts none none true (fun _ => 0) "a.mp3" (some "   ") none).1.error =
            some "No text provided"
        ∧ (tts none none true (fun _ => 0) "a.mp3" (some "   ") none).1.audio_url = none
        ∧ (tts none none true (fun _ => 0) "a.mp3" (some "   ") none).2 = []) :=
  ⟨by decide, tts_empty_text none none true (fun _ => 0) "a.mp3" (some "   ") none (by decide)⟩

/-- Claim C9: with non-empty text but the speech key or region unset,
synthesis raises the credentials-missing error, the request is answered
HTTP 500 with an error message, no audio URL, and no file is written. -/
theorem tts_config_missing (key region : Option String) (vendorOk : Bool)
    (rng : Nat → Nat) (fname : String) (text? lang? : Option String)
    (hne : pyStrip (text?.getD "") ≠ "")
    (hcfg : key.getD "" = "" ∨ region.getD "" = "") :
    (tts key region vendorOk rng fname text? lang?).1.status = 500
    ∧ (tts key region vendorOk rng fname text? lang?).1.error =
        some "TTS failed: Azure Speech credentials missing"
    ∧ (tts key region vendorOk rng fname text? lang?).1.audio_url = none
    ∧ (tts key region vendorOk rng fname text? lang?).2 = [] := by
  unfold tts synthesize_speech
  rcases hcfg with hk | hr
  · simp [hne, hk]
  · simp [hne, hr]

theorem tts_config_missing_witness :
    pyStrip ((some "hello").getD "") ≠ ""
    ∧ ((tts none (some "eastus") true (fun _ => 0) "b.mp3" (some "hello") none).1.status = 500
        ∧ (tts none (some "eastus") true (fun _ => 0) "b.mp3" (some "hello") none).1.error =
            some "TTS failed: Azure Speech credentials missing"
        ∧ (tts none (some "eastus") true (fun _ => 0) "b.mp3"
              (some "hello") none).1.audio_url = none
        ∧ (tts none (some "eastus") true (fun _ => 0) "b.mp3" (some "hello") none).2 = []) :=
  ⟨by decide,
   tts_config_missing none (some "eastus") true (fun _ => 0) "b.mp3" (some "hello") none
     (by decide) (Or.inl rfl)⟩

/-- Counterexample to claim C10 as stated: the supplied tag "" is not one of
the bn variants, yet with Bangla text it is not passed through unchanged and
it receives the Bangla markup branch, not the English one. -/
theorem tts_lang_passthrough_counterexample :
    ¬ isBnTag ""
    ∧ normalize_lang "আমি" (some "") ≠ ""
    ∧ normalize_lang "আমি" (some "") = "bn"
    ∧ build_ssml (fun _ => 0) "আমি" (normalize_lang "আমি" (some "")) ≠
        Ssml.en "en-US-JennyNeural" "1.05" "+3%" "আমি" := by
  refine ⟨by decide, by decide, by decide, ?_⟩
  decide

/-- Claim C10 (amended): with non-empty text, an absent tag — or a supplied
empty tag, which the handler's falsiness test treats as absent — is replaced
by the detector's result; a supplied non-empty tag case-insensitively equal
to "bn", "bn-bd" or "bn_bd" is normalized to exactly "bn"; any other
supplied non-empty tag is passed through unchanged and gets the English
(non-Bangla) markup branch of the SSML builder. -/
theorem tts_lang_normalization (text l : String) (rng : Nat → Nat) :
    normalize_lang text none = detect_language text
    ∧ normalize_lang text (some "") = detect_language text
    ∧ (l ≠ "" → isBnTag l → normalize_lang text (some l) = "bn")
    ∧ (l ≠ "" → ¬ isBnTag l →
        normalize_lang text (some l) = l
        ∧ build_ssml rng text (normalize_lang text (some l)) =
            Ssml.en "en-US-JennyNeural" "1.05" "+3%" text) := by
  have hbn_or_en : detect_language text = "bn" ∨ detect_language text = "en" := by
    unfold detect_language
    by_cases h : (text.toList.any
        (fun c => decide (0x0980 ≤ c.toNat) && decide (c.toNat ≤ 0x09FF)) : Prop)
    · rw [if_pos h]; exact Or.inl rfl
    · rw [if_neg h]; exact Or.inr rfl
  have hdet : normalize_lang text none = detect_language text ∧
      normalize_lang text (some "") = detect_language text := by
    simp only [normalize_lang]
    rcases hbn_or_en with h | h <;> rw [h] <;> exact ⟨by decide, by decide⟩
  refine ⟨hdet.1, hdet.2, fun hne hbn => ?_, fun hne hbn => ?_⟩
  · unfold normalize_lang
    unfold isBnTag at hbn
    rcases hbn with h | h | h <;> simp [hne, h]
  · unfold isBnTag at hbn
    push_neg at hbn
    have hpass : normalize_lang text (some l) = l := by
      unfold normalize_lang
      simp [hne, hbn.1, hbn.2.1, hbn.2.2]
    refine ⟨hpass, ?_⟩
    have hlb : l ≠ "bn" := by
      intro hl
      exact hbn.1 (by rw [hl]; decide)
    rw [hpass]
    unfold build_ssml
    simp [hlb]

theorem tts_lang_normalization_witness :
    ("de" ≠ "" ∧ ¬ isBnTag "de")
    ∧ (normalize_lang "guten tag" (some "de") = "de"
        ∧ build_ssml (fun _ => 1) "guten tag" (normalize_lang "guten tag" (some "de")) =
            Ssml.en "en-US-JennyNeural" "1.05" "+3%" "guten tag") :=
  ⟨by decide,
   (tts_lang_normalization "guten tag" "de" (fun _ => 1)).2.2.2 (by decide) (by decide)⟩

theorem buildBnPieces_proj (rng : Nat → Nat) (frags : List (List Char)) :
    ∀ k, (buildBnPieces rng frags k).map (fun p => (p.text, p.breakMs)) =
      frags.filterMap fragProj := by
  induction frags with
  | nil => intro k; rfl
  | cons s rest ih =>
      intro k
      by_cases h1 : stripChars s = []
      · simp [buildBnPieces, fragProj, h1, ih]
      · by_cases h2 : endsStrong (stripChars s)
        · simp [buildBnPieces, fragProj, h1, h2, ih]
        · simp [buildBnPieces, fragProj, h1, h2, ih]

/-- Claim C7: for language "bn" the SSML builder cuts the text after the
three sentence-ending characters, keeps exactly the fragments that do not
strip to whitespace, each as its own prosody piece carrying its stripped
text, and follows each piece by a 500ms break when it ends in "!" or "?"
and by a 250ms break otherwise; on the spec's example sentence this gives
exactly two pieces, the statement with the 250ms break and the question with
the longer 500ms break. -/
theorem build_ssml_bn_spec (rng : Nat → Nat) (text : String) :
    (∃ pieces, build_ssml rng text "bn" = Ssml.bn pieces
      ∧ pieces.map (fun p => (p.text, p.breakMs)) =
          (splitAfterSentenceEnd text.toList).filterMap fragProj)
    ∧ (∃ p1 p2, build_ssml rng bnExample "bn" = Ssml.bn [p1, p2]
        ∧ p1.text = "আমি ভালো আছি।" ∧ p1.breakMs = 250
        ∧ p2.text = "তুমি কেমন আছ?" ∧ p2.breakMs = 500) := by
  constructor
  · exact ⟨_, rfl, buildBnPieces_proj rng _ 0⟩
  · have h := buildBnPieces_proj rng (splitAfterSentenceEnd bnExample.toList) 0
    have hv : (splitAfterSentenceEnd bnExample.toList).filterMap fragProj =
        [("আমি ভালো আছি।", 250), ("তুমি কেমন আছ?", 500)] := by decide
    rw [hv] at h
    obtain ⟨p1, p2, hps⟩ : ∃ p1 p2,
        buildBnPieces rng (splitAfterSentenceEnd bnExample.toList) 0 = [p1, p2] := by
      rcases hl : buildBnPieces rng (splitAfterSentenceEnd bnExample.toList) 0 with
          _ | ⟨a, _ | ⟨b, _ | ⟨c, l⟩⟩⟩ <;> rw [hl] at h <;> simp at h
      exact ⟨a, b, rfl⟩
    rw [hps] at h
    simp only [List.map_cons, List.map_nil, List.cons.injEq, Prod.mk.injEq,
      and_true] at h
    exact ⟨p1, p2, by rw [build_ssml, if_pos rfl, hps],
      h.1.1, h.1.2, h.2.1, h.2.2⟩

theorem takeLast_eq (n : Nat) (l : List α) :
    takeLast n l = (l.reverse.take n).reverse :=
  List.rtake_eq_reverse_take_reverse l n

theorem length_takeLast (n : Nat) (l : List α) :
    (takeLast n l).length = min n l.length := by
  rw [takeLast_eq]; simp

theorem takeLast_append_absorb (n : Nat) (xs ys : List α) :
    takeLast n (takeLast n xs ++ ys) = takeLast n (xs ++ ys) := by
  rw [takeLast_eq n xs, takeLast_eq, takeLast_eq]
  rw [List.reverse_append, List.reverse_reverse, List.reverse_append]
  congr 1
  rw [List.take_append_eq_append_take, List.take_append_eq_append_take]
  congr 1
  rw [List.take_take]
  congr 1
  exact inf_eq_left.mpr (Nat.sub_le _ _)

theorem chat_success_history (env : Env) (st : SessionState) (t : String × String)
    (hne : pyStrip t.1 ≠ "") :
    (chat env (fun _ => some t.2) st (some t.1)).state.chat_history =
      takeLast 6 (st.chat_history ++ turnPair t) := by
  unfold chat turnPair
  rcases hsi : st.system_instruction with _ | s <;> simp [hne, hsi]

theorem runChat_history (env : Env) (turns : List (String × String)) :
    ∀ (st : SessionState) (xs : List Msg),
      (∀ t ∈ turns, pyStrip t.1 ≠ "") →
      st.chat_history = takeLast 6 xs →
      (runChat env st turns).chat_history = takeLast 6 (xs ++ pairsOf turns) := by
  induction turns with
  | nil =>
      intro st xs _ hst
      simpa [runChat, pairsOf] using hst
  | cons t rest ih =>
      intro st xs hne hst
      have hne1 : pyStrip t.1 ≠ "" := hne t (List.mem_cons_self t rest)
      have hner : ∀ u ∈ rest, pyStrip u.1 ≠ "" :=
        fun u hu => hne u (List.mem_cons_of_mem t hu)
      have hstep2 : (chat env (fun _ => some t.2) st (some t.1)).state.chat_history
          = takeLast 6 (xs ++ turnPair t) := by
        rw [chat_success_history env st t hne1, hst, takeLast_append_absorb]
      have hrun : runChat env st (t :: rest) =
          runChat env (chat env (fun _ => some t.2) st (some t.1)).state rest := rfl
      rw [hrun, ih _ _ hner hstep2]
      simp [pairsOf, List.flatMap_cons, List.append_assoc]

theorem length_pairsOf (turns : List (String × String)) :
    (pairsOf turns).length = 2 * turns.length := by
  induction turns with
  | nil => rfl
  | cons t rest ih =>
      simp only [pairsOf, List.flatMap_cons, List.length_append, List.length_cons] at ih ⊢
      simp [turnPair, ih]
      omega

theorem pairsOf_alternating (turns : List (String × String)) :
    ∀ i (hi : i < (pairsOf turns).length),
      ((pairsOf turns).get ⟨i, hi⟩).role =
        if i % 2 = 0 then "user" else "assistant" := by
  induction turns with
  | nil => intro i hi; simp [pairsOf] at hi
  | cons t rest ih =>
      intro i hi
      match i with
      | 0 => simp [pairsOf, List.flatMap_cons, turnPair]
      | 1 => simp [pairsOf, List.flatMap_cons, turnPair]
      | (n + 2) =>
          have hl2 : (turnPair t).length = 2 := rfl
          have hlc : (pairsOf (t :: rest)).length =
              (turnPair t).length + (pairsOf rest).length := by
            simp [pairsOf, List.flatMap_cons]
          have h2 : n < (pairsOf rest).length := by
            have hi' := hi
            rw [hlc, hl2] at hi'
            omega
          have hmod : (n + 2) % 2 = n % 2 := Nat.add_mod_right n 2
          have hget : ((pairsOf (t :: rest)).get ⟨n + 2, hi⟩) =
              (pairsOf rest).get ⟨n, h2⟩ := by
            simp [pairsOf, List.flatMap_cons, turnPair]
          rw [hget, hmod]
          exact ih n h2

theorem drop_even_alternating (l : List Msg) (m : Nat) (hm : m % 2 = 0)
    (h : ∀ i (hi : i < l.length),
      (l.get ⟨i, hi⟩).role = if i % 2 = 0 then "user" else "assistant") :
    ∀ i (hi : i < (l.drop m).length),
      ((l.drop m).get ⟨i, hi⟩).role = if i % 2 = 0 then "user" else "assistant" := by
  intro i hi
  have hlen : m + i < l.length := by
    simp only [List.length_drop] at hi; omega
  have hg : (l.drop m).get ⟨i, hi⟩ = l.get ⟨m + i, hlen⟩ := by
    simp [List.getElem_drop]
  have hmod : (m + i) % 2 = i % 2 := by omega
  rw [hg, h (m + i) hlen, hmod]

/-- Claim C1: starting from a fresh session, after N chat turns with
non-empty messages and successful model calls the history equals the last 6
of the full oldest-first turn sequence (trimming always removes from the
front), so its length is exactly min(2N, 6), always even, and entries
alternate user/assistant starting with a user message. -/
theorem chat_history_invariant (env : Env) (turns : List (String × String))
    (hne : ∀ t ∈ turns, pyStrip t.1 ≠ "") :
    (runChat env {} turns).chat_history = takeLast 6 (pairsOf turns)
    ∧ (runChat env {} turns).chat_history.length = min (2 * turns.length) 6
    ∧ Even (runChat env {} turns).chat_history.length
    ∧ (∀ i (hi : i < (runChat env {} turns).chat_history.length),
        ((runChat env {} turns).chat_history.get ⟨i, hi⟩).role =
          if i % 2 = 0 then "user" else "assistant") := by
  have hmain : (runChat env {} turns).chat_history = takeLast 6 (pairsOf turns) := by
    have h := runChat_history env turns {} [] hne rfl
    simpa using h
  have hlen : (runChat env {} turns).chat_history.length = min (2 * turns.length) 6 := by
    rw [hmain, length_takeLast, length_pairsOf, Nat.min_comm]
  have heven : Even (min (2 * turns.length) 6) := by
    rcases Nat.le_total (2 * turns.length) 6 with h | h
    · rw [Nat.min_eq_left h]; exact ⟨turns.length, by omega⟩
    · rw [Nat.min_eq_right h]; decide
  have halt : ∀ i (hi : i < (takeLast 6 (pairsOf turns)).length),
      ((takeLast 6 (pairsOf turns)).get ⟨i, hi⟩).role =
        if i % 2 = 0 then "user" else "assistant" := by
    have hm : ((pairsOf turns).length - 6) % 2 = 0 := by
      rw [length_pairsOf]; omega
    exact drop_even_alternating (pairsOf turns) _ hm (pairsOf_alternating turns)
  exact ⟨hmain, hlen, hlen ▸ heven, hmain.symm ▸ halt⟩

theorem chat_history_invariant_witness :
    demoTurns.all (fun t => !(pyStrip t.1 == "")) = true
    ∧ ((runChat default {} demoTurns).chat_history = takeLast 6 (pairsOf demoTurns)
        ∧ (runChat default {} demoTurns).chat_history.length = min (2 * demoTurns.length) 6
        ∧ Even (runChat default {} demoTurns).chat_history.length
        ∧ (∀ i (hi : i < (runChat default {} demoTurns).chat_history.length),
            ((runChat default {} demoTurns).chat_history.get ⟨i, hi⟩).role =
              if i % 2 = 0 then "user" else "assistant")) :=
  ⟨by decide, chat_history_invariant default demoTurns (by decide)⟩

end App
